import Mathlib

/-!
Shallow embedding of the particle-generation and shape-morphing core of the
`christmas-tree-react` repository (`src/components/ChristmasTree.jsx`).

Numbers are embedded as exact rationals (`ℚ`).  The JavaScript transcendental
primitives (`Math.sin`, `Math.cos`, `Math.pow`, `Math.sqrt`, `Math.PI`) are
abstracted into a `JsMath` parameter structure: none of the verified claims
depends on the values these primitives return, so every theorem below is
quantified over an arbitrary interpretation, and witnesses instantiate them
with a trivial one.  `Math.random()` draws are made explicit: each generator
takes, for every loop iteration, a record holding the uniform draws that the
corresponding loop body consumes, together with (where a claim needs it) the
hypothesis that each draw lies in `[0,1)`.
-/

namespace XmasTree

/-- Interpretation of the JavaScript math primitives used by the generators.
The embedding is parametric in these; no claim below depends on their values. -/
structure JsMath where
  sin : ℚ → ℚ
  cos : ℚ → ℚ
  pow : ℚ → ℚ → ℚ
  sqrt : ℚ → ℚ
  pi : ℚ

/-- `Math.floor`, returned as a rational (JS numbers stay doubles). -/
def jsFloor (q : ℚ) : ℚ := (⌊q⌋ : ℚ)

/-- The trivial interpretation of the math primitives, used by witnesses. -/
def M0 : JsMath := ⟨fun _ => 0, fun _ => 0, fun _ _ => 0, fun _ => 0, 0⟩

/-- CONFIG.TREE_POINTS -/
def TREE_POINTS : ℕ := 50000
/-- CONFIG.GROUND_POINTS -/
def GROUND_POINTS : ℕ := 4000
/-- CONFIG.STAR_POINTS -/
def STAR_POINTS : ℕ := 1200
/-- CONFIG.TREE_HEIGHT -/
def TREE_HEIGHT : ℚ := 12.0

/-- A 3D point with rational coordinates. -/
structure Vec3 where
  x : ℚ
  y : ℚ
  z : ℚ
deriving DecidableEq

/-- The discrete gesture-controlled mode. -/
inductive Mode where
  | TREE
  | SCATTER
  | HEART
deriving DecidableEq

/-- One generated particle: base ("tree") position, scatter target, optional
heart target, and a color fixed at generation time.  In the source these are
the object literals pushed by the three generators. -/
structure Particle where
  position : Vec3
  scatterPos : Vec3
  heartPos : Option Vec3
  color : Vec3
deriving DecidableEq

/-- The canopy palette of a theme (`theme.tree` in the source). -/
structure TreePalette where
  deep : ℚ × ℚ × ℚ
  medium : ℚ × ℚ × ℚ
  light : ℚ × ℚ × ℚ
  white : Bool
deriving DecidableEq

/-- `theme.ground.b` is either a scalar or a `[lo, hi]` range in the source
(`Array.isArray(ground.b)` is tested). -/
inductive GroundB where
  | scalar (b : ℚ)
  | range (b0 b1 : ℚ)
deriving DecidableEq

/-- A color theme (one entry of `COLOR_THEMES`); the music asset path is
irrelevant to the core and omitted. -/
structure ColorTheme where
  tree : TreePalette
  groundR : ℚ × ℚ
  groundG : ℚ × ℚ
  groundB : GroundB
  heart : ℚ × ℚ × ℚ
  stars : ℚ × ℚ
deriving DecidableEq

/-- COLOR_THEMES.classic -/
def classicTheme : ColorTheme :=
  { tree := { deep := (255, 60, 180), medium := (255, 100, 190),
              light := (255, 160, 200), white := true }
    groundR := (100, 150), groundG := (150, 200), groundB := .scalar 255
    heart := (255, 220, 50), stars := (215, 255) }

/-- COLOR_THEMES.traditional -/
def traditionalTheme : ColorTheme :=
  { tree := { deep := (0, 80, 0), medium := (34, 139, 34),
              light := (50, 150, 50), white := true }
    groundR := (34, 80), groundG := (80, 120), groundB := .range 34 60
    heart := (255, 215, 0), stars := (200, 255) }

/-- COLOR_THEMES.red -/
def redTheme : ColorTheme :=
  { tree := { deep := (220, 20, 60), medium := (255, 47, 0),
              light := (255, 99, 71), white := false }
    groundR := (139, 200), groundG := (0, 50), groundB := .range 0 30
    heart := (255, 215, 0), stars := (255, 200) }

/-- COLOR_THEMES.blue -/
def blueTheme : ColorTheme :=
  { tree := { deep := (0, 100, 255), medium := (50, 150, 255),
              light := (100, 200, 255), white := true }
    groundR := (0, 50), groundG := (50, 150), groundB := .scalar 255
    heart := (255, 255, 200), stars := (150, 255) }

/-- COLOR_THEMES.purple -/
def purpleTheme : ColorTheme :=
  { tree := { deep := (138, 43, 226), medium := (147, 112, 219),
              light := (186, 85, 211), white := false }
    groundR := (75, 150), groundG := (0, 80), groundB := .range 130 255
    heart := (255, 215, 0), stars := (180, 255) }

/-- All five themes of `COLOR_THEMES`. -/
def allThemes : List ColorTheme :=
  [classicTheme, traditionalTheme, redTheme, blueTheme, purpleTheme]

/-! ## Point-Set Generator: canopy group (`generateTreePoints`) -/

/-- The `Math.random()` draws consumed by one iteration of the 70% spiral
loop of `generateTreePoints`, in source order.  `jg`/`jb` are the per-channel
color jitters and `bright` the brightness draw; each loop body consumes the
subset its color branch needs. -/
structure SpiralDraws where
  u : ℚ
  angJit : ℚ
  rJit : ℚ
  armDraw : ℚ
  distDraw : ℚ
  armAngJit : ℚ
  sxJit : ℚ
  syJit : ℚ
  szJit : ℚ
  colorRand : ℚ
  jg : ℚ
  jb : ℚ
  bright : ℚ
deriving DecidableEq

/-- The `Math.random()` draws consumed by one iteration of the 30% fill loop
of `generateTreePoints`, in source order.  `distInner`/`distOuter` are the two
distinct draws of the bimodal `distFromCenter` ternary. -/
structure FillDraws where
  hDraw : ℚ
  yJit : ℚ
  rDraw : ℚ
  angDraw : ℚ
  xJit : ℚ
  zJit : ℚ
  armDraw : ℚ
  distRandom : ℚ
  distInner : ℚ
  distOuter : ℚ
  armAngJit : ℚ
  sxJit : ℚ
  syJit : ℚ
  szJit : ℚ
  tDraw : ℚ
  heartZJit : ℚ
  colorRand : ℚ
  jg : ℚ
  jb : ℚ
  bright : ℚ
deriving DecidableEq

/-- `new THREE.Color(r/255, (g + rand*20)/255, (b + rand*20)/255)` — the
jittered palette-entry color used by the deep/medium/light branches. -/
def jitterColor (rgb : ℚ × ℚ × ℚ) (jg jb : ℚ) : Vec3 :=
  ⟨rgb.1 / 255, (rgb.2.1 + jg * 20) / 255, (rgb.2.2 + jb * 20) / 255⟩

/-- Color branch of the spiral loop of `generateTreePoints`
(lines 115–150 of `ChristmasTree.jsx`). -/
def spiralColor (colors : TreePalette) (d : SpiralDraws) : Vec3 :=
  if colors.deep = (0, 80, 0) ∧ d.colorRand < 0.10 then
    ⟨200/255, 20/255, 20/255⟩
  else if d.colorRand < 0.15 then
    jitterColor colors.deep d.jg d.jb
  else if d.colorRand < 0.3 then
    jitterColor colors.medium d.jg d.jb
  else if d.colorRand < 0.45 then
    jitterColor colors.light d.jg d.jb
  else if colors.white then
    if colors.deep = (0, 80, 0) then
      let brightness := jsFloor (d.bright * 25 + 60)
      ⟨brightness * 0.15 / 255, brightness / 255, brightness * 0.15 / 255⟩
    else
      let brightness := jsFloor (d.bright * 50 + 205)
      ⟨brightness / 255, brightness / 255, brightness / 255⟩
  else
    ⟨(colors.light.1 + 30) / 255, (colors.light.2.1 + 30) / 255,
     (colors.light.2.2 + 30) / 255⟩

/-- One particle of the 70% spiral loop of `generateTreePoints`
(lines 85–153 of `ChristmasTree.jsx`).  Note: no `heartPos`. -/
def spiralParticle (M : JsMath) (colors : TreePalette) (d : SpiralDraws) :
    Particle :=
  let loops : ℚ := 9
  let u := d.u
  let h := M.pow u 1.6
  let y := TREE_HEIGHT * h + 0.2
  let baseR := M.pow (1 - h) 1.1 * 3.2
  let branchWave := max 0 (M.sin ((h * 5.8 + 0.15) * M.pi * 2))
  let branchFactor := 1.0 + 0.65 * branchWave
  let baseR := baseR * branchFactor
  let t := u * loops * M.pi * 2
  let angle := t + (d.angJit - 0.5) * 0.44
  let r := baseR * (0.85 + d.rJit * 0.23)
  let x := M.cos angle * r
  let z := M.sin angle * r
  let armIndex := jsFloor (d.armDraw * 2)
  let armAngleOffset := armIndex * M.pi
  let distFromCenter := 2 + d.distDraw * 12
  let spiralTightness : ℚ := 0.5
  let armAngle := armAngleOffset + spiralTightness * distFromCenter
      + (d.armAngJit - 0.5) * 0.4
  let scatterPos : Vec3 :=
    ⟨M.cos armAngle * distFromCenter + (d.sxJit - 0.5) * 1.0,
     -2 + (d.syJit - 0.5) * 0.4,
     M.sin armAngle * distFromCenter + (d.szJit - 0.5) * 1.0⟩
  { position := ⟨x, y, z⟩, scatterPos := scatterPos, heartPos := none,
    color := spiralColor colors d }

/-- Color branch of the fill loop of `generateTreePoints`
(lines 195–222 of `ChristmasTree.jsx`). -/
def fillColor (colors : TreePalette) (d : FillDraws) : Vec3 :=
  if d.colorRand < 0.25 then
    jitterColor colors.deep d.jg d.jb
  else if d.colorRand < 0.5 then
    jitterColor colors.medium d.jg d.jb
  else if d.colorRand < 0.75 then
    jitterColor colors.light d.jg d.jb
  else if colors.white then
    if colors.deep = (0, 80, 0) then
      let brightness := jsFloor (d.bright * 30 + 100)
      ⟨brightness * 0.2 / 255, brightness / 255, brightness * 0.2 / 255⟩
    else
      let brightness := jsFloor (d.bright * 50 + 205)
      ⟨brightness / 255, brightness / 255, brightness / 255⟩
  else
    ⟨(colors.light.1 + 40) / 255, (colors.light.2.1 + 40) / 255,
     (colors.light.2.2 + 40) / 255⟩

/-- One particle of the 30% fill loop of `generateTreePoints`
(lines 157–224 of `ChristmasTree.jsx`); these carry a `heartPos`. -/
def fillParticle (M : JsMath) (colors : TreePalette) (d : FillDraws) :
    Particle :=
  let h := M.pow d.hDraw 1.9
  let y := TREE_HEIGHT * h + 0.2 + (d.yJit - 0.5) * 0.16
  let baseR := M.pow (1 - h) 1.1 * 4.3
  let branchWave := max 0 (M.sin ((h * 5.8 + 0.15) * M.pi * 2))
  let branchFactor := 1.0 + 0.65 * branchWave
  let baseR := baseR * branchFactor
  let r := baseR * M.sqrt d.rDraw
  let angle := d.angDraw * M.pi * 2
  let x := M.cos angle * r + (d.xJit - 0.5) * 0.16
  let z := M.sin angle * r + (d.zJit - 0.5) * 0.16
  let armIndex := jsFloor (d.armDraw * 2)
  let armAngleOffset := armIndex * M.pi
  let distFromCenter :=
    if d.distRandom < 0.5 then 0.3 + d.distInner * 3 else 3 + d.distOuter * 8
  let spiralTightness : ℚ := 2.5
  let armAngle := armAngleOffset + spiralTightness * distFromCenter
      + (d.armAngJit - 0.5) * 0.1
  let scatterPos : Vec3 :=
    ⟨M.cos armAngle * distFromCenter + (d.sxJit - 0.5) * 0.15,
     -2 + (d.syJit - 0.5) * 0.12,
     M.sin armAngle * distFromCenter + (d.szJit - 0.5) * 0.15⟩
  let t := d.tDraw * M.pi * 2
  let heartScale : ℚ := 3.0
  let heartX := heartScale * 16 * M.pow (M.sin t) 3
  let heartY := heartScale *
    (13 * M.cos t - 5 * M.cos (2 * t) - 2 * M.cos (3 * t) - M.cos (4 * t))
  let heartZ := (d.heartZJit - 0.5) * 2.0
  let heartPos : Vec3 := ⟨heartX / 16, heartY / 16 + 12, heartZ⟩
  { position := ⟨x, y, z⟩, scatterPos := scatterPos, heartPos := some heartPos,
    color := fillColor colors d }

/-- `Math.floor(CONFIG.TREE_POINTS * 0.7)` = 35000. -/
def spiralN : ℕ := (⌊(TREE_POINTS : ℚ) * 0.7⌋).toNat

/-- `CONFIG.TREE_POINTS - spiralN` = 15000. -/
def fillN : ℕ := TREE_POINTS - spiralN

/-- `generateTreePoints`: the canopy group, 70% spiral particles followed by
30% fill particles.  `ds`/`df` supply the random draws of iteration `i`. -/
def generateTreePoints (M : JsMath) (theme : ColorTheme)
    (ds : ℕ → SpiralDraws) (df : ℕ → FillDraws) : List Particle :=
  ((List.range spiralN).map fun i => spiralParticle M theme.tree (ds i)) ++
  ((List.range fillN).map fun i => fillParticle M theme.tree (df i))

/-! ## Point-Set Generator: ground group (`generateGroundPoints`) -/

/-- The `Math.random()` draws consumed by one iteration of the loop of
`generateGroundPoints`, in source order.  The core and arm scatter branches
consume distinct draws, so both triples are listed. -/
structure GroundDraws where
  ringDraw : ℚ
  rJit : ℚ
  thetaDraw : ℚ
  useCenterDraw : ℚ
  coreR1 : ℚ
  coreR2 : ℚ
  coreTheta : ℚ
  coreYJit : ℚ
  armDraw : ℚ
  distDraw : ℚ
  armAngJit : ℚ
  sxJit : ℚ
  syJit : ℚ
  szJit : ℚ
  tDraw : ℚ
  heartZJit : ℚ
  colorRand : ℚ
  c1 : ℚ
  c2 : ℚ
  c3 : ℚ
deriving DecidableEq

/-- The ternary `Array.isArray(ground.b) ? Math.floor(rand*(b[1]-b[0])+b[0])
: ground.b` of the first ground color branch. -/
def groundBInterp (gb : GroundB) (j : ℚ) : ℚ :=
  match gb with
  | .range b0 b1 => jsFloor (j * (b1 - b0) + b0)
  | .scalar b => b

/-- The ternary `Array.isArray(ground.b) ? ground.b[1] : ground.b` of the
second and third ground color branches. -/
def groundBHigh (gb : GroundB) : ℚ :=
  match gb with
  | .range _ b1 => b1
  | .scalar b => b

/-- Color branch of `generateGroundPoints` (lines 280–297 of
`ChristmasTree.jsx`). -/
def groundColor (theme : ColorTheme) (d : GroundDraws) : Vec3 :=
  if d.colorRand < 0.3 then
    let r := jsFloor (d.c1 * (theme.groundR.2 - theme.groundR.1) + theme.groundR.1)
    let g := jsFloor (d.c2 * (theme.groundG.2 - theme.groundG.1) + theme.groundG.1)
    let b := groundBInterp theme.groundB d.c3
    ⟨r / 255, g / 255, b / 255⟩
  else if d.colorRand < 0.6 then
    let r := jsFloor (d.c1 * 30 + theme.groundR.1)
    let g := jsFloor (d.c2 * 40 + theme.groundG.1)
    let b := groundBHigh theme.groundB
    ⟨r / 255, g / 255, b / 255⟩
  else
    let r := jsFloor (d.c1 * 30 + min 150 theme.groundR.2)
    let g := jsFloor (d.c2 * 30 + min 200 theme.groundG.2)
    let b := groundBHigh theme.groundB
    ⟨r / 255, g / 255, b / 255⟩

/-- The fixed ring radii of the ground group. -/
def groundRings : List ℚ := [4.6, 6.0, 7.4, 8.8, 10.2, 11.4]

/-- One particle of `generateGroundPoints` (lines 236–300 of
`ChristmasTree.jsx`). -/
def groundParticle (M : JsMath) (theme : ColorTheme) (d : GroundDraws) :
    Particle :=
  let ring := groundRings.getD (⌊d.ringDraw * (groundRings.length : ℚ)⌋).toNat 0
  let r := ring + (d.rJit - 0.5) * 0.6
  let theta := d.thetaDraw * M.pi * 2
  let x := M.cos theta * r
  let z := M.sin theta * r
  let y : ℚ := -0.25
  let useCenter := d.useCenterDraw < 0.85
  let scatterPos : Vec3 :=
    if useCenter then
      let rCore := d.coreR1 * d.coreR2 * 2.0
      let thetaCore := d.coreTheta * M.pi * 2
      ⟨M.cos thetaCore * rCore,
       -2 + (d.coreYJit - 0.5) * 0.2,
       M.sin thetaCore * rCore⟩
    else
      let armIndex := jsFloor (d.armDraw * 2)
      let armAngleOffset := armIndex * M.pi
      let distFromCenter := 1.5 + d.distDraw * 9
      let spiralTightness : ℚ := 2.3
      let armAngle := armAngleOffset + spiralTightness * distFromCenter
          + (d.armAngJit - 0.5) * 0.1
      ⟨M.cos armAngle * distFromCenter + (d.sxJit - 0.5) * 0.2,
       -2 + (d.syJit - 0.5) * 0.15,
       M.sin armAngle * distFromCenter + (d.szJit - 0.5) * 0.2⟩
  let t := d.tDraw * M.pi * 2
  let heartScale : ℚ := 3.0
  let heartX := heartScale * 16 * M.pow (M.sin t) 3
  let heartY := heartScale *
    (13 * M.cos t - 5 * M.cos (2 * t) - 2 * M.cos (3 * t) - M.cos (4 * t))
  let heartZ := (d.heartZJit - 0.5) * 2.0
  let heartPos : Vec3 := ⟨heartX / 16, heartY / 16 + 12, heartZ⟩
  { position := ⟨x, y, z⟩, scatterPos := scatterPos, heartPos := some heartPos,
    color := groundColor theme d }

/-- `generateGroundPoints`: the ground group. -/
def generateGroundPoints (M : JsMath) (theme : ColorTheme)
    (dg : ℕ → GroundDraws) : List Particle :=
  (List.range GROUND_POINTS).map fun i => groundParticle M theme (dg i)

/-! ## Point-Set Generator: ornamental star group (`generateStarPoints`) -/

/-- Per-heart-cluster draws of `generateStarPoints` (one small heart's random
center and scale). -/
structure HeartClusterDraws where
  cx : ℚ
  cy : ℚ
  cz : ℚ
  scaleDraw : ℚ
deriving DecidableEq

/-- Per-particle draws of the inner loop of `generateStarPoints`. -/
structure StarDraws where
  xDraw : ℚ
  zDraw : ℚ
  yDraw : ℚ
  baseDraw : ℚ
deriving DecidableEq

/-- `numHearts` of `generateStarPoints`. -/
def numHearts : ℕ := 15

/-- One particle of the inner loop of `generateStarPoints` (lines 321–344 of
`ChristmasTree.jsx`); its scatter target is its base position verbatim
(`const scatterPos = [x, y, z]`). -/
def starParticle (M : JsMath) (stars : ℚ × ℚ) (particlesPerHeart : ℕ)
    (hc : HeartClusterDraws) (i : ℕ) (d : StarDraws) : Particle :=
  let heartCenterX := (hc.cx - 0.5) * 30
  let heartCenterY := 5 + hc.cy * 10
  let heartCenterZ := (hc.cz - 0.5) * 30
  let heartScale := 0.5 + hc.scaleDraw * 0.5
  let x := (d.xDraw - 0.5) * 36
  let z := (d.zDraw - 0.5) * 36
  let y := 3 + d.yDraw * 15
  let scatterPos : Vec3 := ⟨x, y, z⟩
  let t := ((i : ℚ) / (particlesPerHeart : ℚ)) * M.pi * 2
  let heartX := heartScale * 16 * M.pow (M.sin t) 3
  let heartY := heartScale *
    (13 * M.cos t - 5 * M.cos (2 * t) - 2 * M.cos (3 * t) - M.cos (4 * t))
  let heartPos : Vec3 :=
    ⟨heartX / 16 + heartCenterX, heartY / 16 + heartCenterY, heartCenterZ⟩
  let base := jsFloor (d.baseDraw * (stars.2 - stars.1) + stars.1)
  { position := ⟨x, y, z⟩, scatterPos := scatterPos, heartPos := some heartPos,
    color := ⟨base / 255, base / 255, 255 / 255⟩ }

/-- `generateStarPoints` generalized over the configured point budget `n`
(`CONFIG.STAR_POINTS` in the source): `numHearts` clusters of
`Math.floor(n / numHearts)` particles each. -/
def generateStarPointsN (M : JsMath) (theme : ColorTheme) (n : ℕ)
    (dh : ℕ → HeartClusterDraws) (dp : ℕ → ℕ → StarDraws) : List Particle :=
  (List.range numHearts).flatMap fun h =>
    (List.range (n / numHearts)).map fun i =>
      starParticle M theme.stars (n / numHearts) (dh h) i (dp h i)

/-- `generateStarPoints`: the ornamental group at the configured
`STAR_POINTS` budget. -/
def generateStarPoints (M : JsMath) (theme : ColorTheme)
    (dh : ℕ → HeartClusterDraws) (dp : ℕ → ℕ → StarDraws) : List Particle :=
  generateStarPointsN M theme STAR_POINTS dh dp

/-! ## Shape Interpolator (`Particles`' `useFrame` body, lines 463–498) -/

/-- Target selection of the animation frame: `HEART` uses `heartPos` when the
particle has one, `SCATTER` uses `scatterPos`, everything else (including a
`HEART`-mode particle without a heart target) falls through to the tree
position. -/
def selectTarget (mode : Mode) (p : Particle) : Vec3 :=
  match mode, p.heartPos with
  | Mode.HEART, some hp => hp
  | Mode.SCATTER, _ => p.scatterPos
  | _, _ => p.position

/-- One scalar axis of the per-frame update:
`positions[idx] += (target - positions[idx]) * lerpSpeed` with
`lerpSpeed = 2.0 * delta`.  Note: the source applies `2.0 * delta` directly,
with no clamping. -/
def lerpStep (cur target δ : ℚ) : ℚ := cur + (target - cur) * (2.0 * δ)

/-- One frame of the Shape Interpolator for one particle: move `cur` toward
the mode-selected target on each axis. -/
def animStep (mode : Mode) (p : Particle) (cur : Vec3) (δ : ℚ) : Vec3 :=
  let target := selectTarget mode p
  ⟨lerpStep cur.x target.x δ, lerpStep cur.y target.y δ, lerpStep cur.z target.z δ⟩

/-- Modelled from the spec: the update formula `current += (target − current)
* clamp(k*Δt, 0, 1)` with `k = 2.0`, as §4.2 states it (the source has no
clamp; this definition exists to be compared with `animStep`). -/
def specClampStep (mode : Mode) (p : Particle) (cur : Vec3) (δ : ℚ) : Vec3 :=
  let target := selectTarget mode p
  let s := min (max (2.0 * δ) 0) 1
  ⟨cur.x + (target.x - cur.x) * s,
   cur.y + (target.y - cur.y) * s,
   cur.z + (target.z - cur.z) * s⟩

/-- Iterated scalar interpolation toward a constant target `t`, starting at
`c`, with per-frame elapsed times `δs 0, δs 1, …`. -/
def traj (t c : ℚ) (δs : ℕ → ℚ) : ℕ → ℚ
  | 0 => c
  | n + 1 => lerpStep (traj t c δs n) t (δs n)

/-! ## Gesture Classifier (`processGestures`, lines 811–850) -/

/-- One detected-hand frame as the classifier consumes it: the reference
landmark `lm[9]` coordinates and the two derived scalar features.  The source
computes `pinchDist`/`openDist` with `Math.hypot` over the landmark set; the
features are taken here as the classifier's scalar inputs (the claims are
stated over these features). -/
structure HandFrame where
  lm9x : ℚ
  lm9y : ℚ
  pinchDist : ℚ
  openDist : ℚ
deriving DecidableEq

/-- The shared mode/rotation record (`gestureState` in the source). -/
structure GestureState where
  mode : Mode
  detected : Bool
  handX : ℚ
  handY : ℚ
  rotX : ℚ
  rotY : ℚ
deriving DecidableEq

/-- `processGestures`: one classification step.  With a detected hand it
writes `hand.detected`, `hand.x/y` and (outside the dead-band) `mode`; with
no hand it writes `hand.detected := false` and forces `mode := TREE`.  It
never touches the rotation fields.  (The `setGestureHint` UI string is
outside the core and omitted.) -/
def processGestures (input : Option HandFrame) (s : GestureState) :
    GestureState :=
  match input with
  | some f =>
      let mode :=
        if f.pinchDist < 0.05 then Mode.HEART
        else if f.openDist < 0.30 then Mode.TREE
        else if f.openDist > 0.35 then Mode.SCATTER
        else s.mode
      { s with detected := true,
               handX := (f.lm9x - 0.5) * 2,
               handY := (f.lm9y - 0.5) * 2,
               mode := mode }
  | none =>
      { s with detected := false, mode := Mode.TREE }

/-! ## Rotation Controller (`Scene`'s `useFrame` body, lines 609–647) -/

/-- One frame of the rotation update; returns the new `(rotation.x,
rotation.y)`.  Branch order follows the source: SCATTER-with-hand edge
control, then TREE, then HEART, then the drift fallback. -/
def updateRotation (mode : Mode) (detected : Bool) (handX handY δ rotX rotY : ℚ) :
    ℚ × ℚ :=
  let threshold : ℚ := 0.3
  let speed : ℚ := 1.2
  if mode = Mode.SCATTER ∧ detected = true then
    let rotY' :=
      if handX > threshold then rotY + speed * δ * (handX - threshold)
      else if handX < -threshold then rotY + speed * δ * (handX + threshold)
      else rotY
    let rotX' :=
      if handY > threshold then rotX + speed * δ * (handY - threshold)
      else if handY < -threshold then rotX + speed * δ * (handY + threshold)
      else rotX
    (rotX', rotY')
  else if mode = Mode.TREE then
    (rotX + (0 - rotX) * 2.0 * δ, rotY + 0.15 * δ)
  else if mode = Mode.HEART then
    (rotX + (0 - rotX) * 1.5 * δ, rotY + 0.1 * δ)
  else
    (rotX, rotY + 0.05 * δ)

/-- Modelled from the spec: the portion of a hand coordinate beyond the
±0.3 dead-zone (zero inside it), used to state the edge-proportional
control claim. -/
def deadExcess (v : ℚ) : ℚ :=
  if v > 0.3 then v - 0.3 else if v < -0.3 then v + 0.3 else 0

/-! ## Draw-validity and color-range predicates -/

/-- A single `Math.random()` draw: a value in `[0, 1)`. -/
def unit01 (q : ℚ) : Prop := 0 ≤ q ∧ q < 1

instance (q : ℚ) : Decidable (unit01 q) := by unfold unit01; infer_instance

/-- Every draw of a spiral-loop iteration lies in `[0,1)`. -/
def ValidSpiralDraws (d : SpiralDraws) : Prop :=
  unit01 d.u ∧ unit01 d.angJit ∧ unit01 d.rJit ∧ unit01 d.armDraw ∧
  unit01 d.distDraw ∧ unit01 d.armAngJit ∧ unit01 d.sxJit ∧ unit01 d.syJit ∧
  unit01 d.szJit ∧ unit01 d.colorRand ∧ unit01 d.jg ∧ unit01 d.jb ∧
  unit01 d.bright

instance (d : SpiralDraws) : Decidable (ValidSpiralDraws d) := by
  unfold ValidSpiralDraws; infer_instance

/-- Every draw of a fill-loop iteration lies in `[0,1)`. -/
def ValidFillDraws (d : FillDraws) : Prop :=
  unit01 d.hDraw ∧ unit01 d.yJit ∧ unit01 d.rDraw ∧ unit01 d.angDraw ∧
  unit01 d.xJit ∧ unit01 d.zJit ∧ unit01 d.armDraw ∧ unit01 d.distRandom ∧
  unit01 d.distInner ∧ unit01 d.distOuter ∧ unit01 d.armAngJit ∧
  unit01 d.sxJit ∧ unit01 d.syJit ∧ unit01 d.szJit ∧ unit01 d.tDraw ∧
  unit01 d.heartZJit ∧ unit01 d.colorRand ∧ unit01 d.jg ∧ unit01 d.jb ∧
  unit01 d.bright

instance (d : FillDraws) : Decidable (ValidFillDraws d) := by
  unfold ValidFillDraws; infer_instance

/-- Every draw of a ground-loop iteration lies in `[0,1)`. -/
def ValidGroundDraws (d : GroundDraws) : Prop :=
  unit01 d.ringDraw ∧ unit01 d.rJit ∧ unit01 d.thetaDraw ∧
  unit01 d.useCenterDraw ∧ unit01 d.coreR1 ∧ unit01 d.coreR2 ∧
  unit01 d.coreTheta ∧ unit01 d.coreYJit ∧ unit01 d.armDraw ∧
  unit01 d.distDraw ∧ unit01 d.armAngJit ∧ unit01 d.sxJit ∧ unit01 d.syJit ∧
  unit01 d.szJit ∧ unit01 d.tDraw ∧ unit01 d.heartZJit ∧ unit01 d.colorRand ∧
  unit01 d.c1 ∧ unit01 d.c2 ∧ unit01 d.c3

instance (d : GroundDraws) : Decidable (ValidGroundDraws d) := by
  unfold ValidGroundDraws; infer_instance

/-- Every draw of a star-particle iteration lies in `[0,1)`. -/
def ValidStarDraws (d : StarDraws) : Prop :=
  unit01 d.xDraw ∧ unit01 d.zDraw ∧ unit01 d.yDraw ∧ unit01 d.baseDraw

instance (d : StarDraws) : Decidable (ValidStarDraws d) := by
  unfold ValidStarDraws; infer_instance

/-- A palette byte-triple lies in `[0,255]` componentwise. -/
def rgbOK (c : ℚ × ℚ × ℚ) : Prop :=
  0 ≤ c.1 ∧ c.1 ≤ 255 ∧ 0 ≤ c.2.1 ∧ c.2.1 ≤ 255 ∧ 0 ≤ c.2.2 ∧ c.2.2 ≤ 255

/-- All three canopy palette entries lie in `[0,255]`. -/
def paletteOK (p : TreePalette) : Prop :=
  rgbOK p.deep ∧ rgbOK p.medium ∧ rgbOK p.light

/-- The ground blue entry lies in `[0,255]`. -/
def groundBOK : GroundB → Prop
  | .scalar b => 0 ≤ b ∧ b ≤ 255
  | .range b0 b1 => 0 ≤ b0 ∧ b0 ≤ 255 ∧ 0 ≤ b1 ∧ b1 ≤ 255

/-- Numeric sanity of a theme's palette data, as enjoyed by all five themes
of `COLOR_THEMES` (byte-valued entries, with the ground jitter bases small
enough that `+30`/`+40` jitters stay below 256). -/
def themeOK (t : ColorTheme) : Prop :=
  paletteOK t.tree ∧
  0 ≤ t.groundR.1 ∧ t.groundR.1 ≤ 225 ∧ 0 ≤ t.groundR.2 ∧ t.groundR.2 ≤ 255 ∧
  0 ≤ t.groundG.1 ∧ t.groundG.1 ≤ 215 ∧ 0 ≤ t.groundG.2 ∧ t.groundG.2 ≤ 255 ∧
  groundBOK t.groundB ∧
  0 ≤ t.stars.1 ∧ t.stars.1 ≤ 255 ∧ 0 ≤ t.stars.2 ∧ t.stars.2 ≤ 255

instance : (b : GroundB) → Decidable (groundBOK b)
  | .scalar _ => by unfold groundBOK; infer_instance
  | .range _ _ => by unfold groundBOK; infer_instance

instance (t : ColorTheme) : Decidable (themeOK t) := by
  unfold themeOK paletteOK rgbOK; infer_instance

/-- A color triple lying in `[0,1]` componentwise (the spec's claimed
range). -/
def inUnit3 (v : Vec3) : Prop :=
  0 ≤ v.x ∧ v.x ≤ 1 ∧ 0 ≤ v.y ∧ v.y ≤ 1 ∧ 0 ≤ v.z ∧ v.z ≤ 1

instance (v : Vec3) : Decidable (inUnit3 v) := by unfold inUnit3; infer_instance

/-- A color triple lying in `[0, 295/255]` componentwise: the range the
canopy generator actually guarantees (the `light + 40` highlight branch can
reach `295/255 > 1`). -/
def inCanopyRange (v : Vec3) : Prop :=
  0 ≤ v.x ∧ v.x ≤ 295/255 ∧ 0 ≤ v.y ∧ v.y ≤ 295/255 ∧
  0 ≤ v.z ∧ v.z ≤ 295/255

instance (v : Vec3) : Decidable (inCanopyRange v) := by
  unfold inCanopyRange; infer_instance

/-! ## Concrete instances used by witnesses and counterexamples -/

/-- A spiral-iteration draw record with every draw at `1/2`. -/
def dSp0 : SpiralDraws :=
  ⟨0.5, 0.5, 0.5, 0.5, 0.5, 0.5, 0.5, 0.5, 0.5, 0.5, 0.5, 0.5, 0.5⟩

/-- A fill-iteration draw record with every draw at `1/2`. -/
def dFill0 : FillDraws :=
  ⟨0.5, 0.5, 0.5, 0.5, 0.5, 0.5, 0.5, 0.5, 0.5, 0.5,
   0.5, 0.5, 0.5, 0.5, 0.5, 0.5, 0.5, 0.5, 0.5, 0.5⟩

/-- A fill-iteration draw record whose `colorRand = 0.8` routes the red theme
(whose `white` flag is `false`) into the `light + 40` highlight branch. -/
def dFillCex : FillDraws :=
  ⟨0.5, 0.5, 0.5, 0.5, 0.5, 0.5, 0.5, 0.5, 0.5, 0.5,
   0.5, 0.5, 0.5, 0.5, 0.5, 0.5, 0.8, 0.5, 0.5, 0.5⟩

/-- A ground-iteration draw record with every draw at `1/2`. -/
def dGround0 : GroundDraws :=
  ⟨0.5, 0.5, 0.5, 0.5, 0.5, 0.5, 0.5, 0.5, 0.5, 0.5,
   0.5, 0.5, 0.5, 0.5, 0.5, 0.5, 0.5, 0.5, 0.5, 0.5⟩

/-- A heart-cluster draw record with every draw at `1/2`. -/
def hc0 : HeartClusterDraws := ⟨0.5, 0.5, 0.5, 0.5⟩

/-- A star-particle draw record with every draw at `1/2`. -/
def st0 : StarDraws := ⟨0.5, 0.5, 0.5, 0.5⟩

/-- A gesture state previously left in SCATTER mode. -/
def s0 : GestureState := ⟨Mode.SCATTER, false, 0, 0, 0, 0⟩

/-- A particle whose tree-mode target has `x = 1`, used to exercise the
interpolator at concrete inputs. -/
def pEx : Particle := ⟨⟨1, 0, 0⟩, ⟨0, 0, 0⟩, none, ⟨1, 1, 1⟩⟩

/-! ## Shared helper lemmas -/

/-- `Math.floor(CONFIG.TREE_POINTS * 0.7)` evaluates to 35000. -/
theorem spiralN_eq : spiralN = 35000 := by
  have h : ((TREE_POINTS : ℚ) * 0.7) = ((35000 : ℕ) : ℚ) := by
    norm_num [TREE_POINTS]
  rw [spiralN, h, Int.floor_natCast, Int.toNat_natCast]

/-- The fill loop runs 15000 times. -/
theorem fillN_eq : fillN = 15000 := by
  rw [fillN, spiralN_eq, TREE_POINTS]

/-- Length of a `flatMap` whose pieces all have the same length. -/
theorem length_flatMap_const {α β : Type} (l : List α) (f : α → List β) (k : ℕ)
    (h : ∀ a ∈ l, (f a).length = k) : (l.flatMap f).length = l.length * k := by
  induction l with
  | nil => simp
  | cons a l ih =>
      simp only [List.flatMap_cons, List.length_append, List.length_cons]
      rw [h a (List.mem_cons_self a l), ih fun b hb => h b (List.mem_cons_of_mem a hb)]
      ring

/-! ## Claims about the Gesture Classifier -/

/-- C3: with a detected hand, the classified mode is a pure function of
(pinch, openness, previous mode): pinch < 0.05 forces HEART regardless of
openness; otherwise openness < 0.30 gives TREE, openness > 0.35 gives
SCATTER, and in the dead-band 0.30 ≤ openness ≤ 0.35 the previous mode is
held. -/
theorem classifier_bands (f : HandFrame) (s : GestureState) :
    (f.pinchDist < 0.05 → (processGestures (some f) s).mode = Mode.HEART)
  ∧ (0.05 ≤ f.pinchDist → f.openDist < 0.30 →
      (processGestures (some f) s).mode = Mode.TREE)
  ∧ (0.05 ≤ f.pinchDist → 0.35 < f.openDist →
      (processGestures (some f) s).mode = Mode.SCATTER)
  ∧ (0.05 ≤ f.pinchDist → 0.30 ≤ f.openDist → f.openDist ≤ 0.35 →
      (processGestures (some f) s).mode = s.mode) := by
  refine ⟨fun h1 => ?_, fun h1 h2 => ?_, fun h1 h2 => ?_, fun h1 h2 h3 => ?_⟩ <;>
    simp only [processGestures] <;> split_ifs <;> first | rfl | linarith

/-- Witness for C3: each of the four bands realized at a concrete frame
(pinch 0.02 with wide-open hand → HEART; pinch 0.1 with openness 0.20 →
TREE; openness 0.50 → SCATTER; openness 0.32 from previous SCATTER →
SCATTER held). -/
theorem classifier_bands_witness :
    (processGestures (some ⟨0, 0, 0.02, 0.9⟩) s0).mode = Mode.HEART
  ∧ (processGestures (some ⟨0, 0, 0.1, 0.2⟩) s0).mode = Mode.TREE
  ∧ (processGestures (some ⟨0, 0, 0.1, 0.5⟩) s0).mode = Mode.SCATTER
  ∧ (processGestures (some ⟨0, 0, 0.1, 0.32⟩) s0).mode = Mode.SCATTER :=
  ⟨(classifier_bands ⟨0, 0, 0.02, 0.9⟩ s0).1 (by norm_num),
   (classifier_bands ⟨0, 0, 0.1, 0.2⟩ s0).2.1 (by norm_num) (by norm_num),
   (classifier_bands ⟨0, 0, 0.1, 0.5⟩ s0).2.2.1 (by norm_num) (by norm_num),
   (classifier_bands ⟨0, 0, 0.1, 0.32⟩ s0).2.2.2 (by norm_num) (by norm_num)
     (by norm_num)⟩

/-- C4: a classification frame with no detected hand sets
`hand.detected := false` and forces the mode to TREE, whatever the previous
state was. -/
theorem no_hand_forces_tree (s : GestureState) :
    (processGestures none s).detected = false
  ∧ (processGestures none s).mode = Mode.TREE :=
  ⟨rfl, rfl⟩

/-- C10: on a no-hand frame the classifier leaves `hand.x`/`hand.y` exactly
as the last detected frame wrote them, and on every frame (hand or not) it
never writes the rotation fields. -/
theorem classifier_frame_effect (s : GestureState) (input : Option HandFrame) :
    (processGestures none s).handX = s.handX
  ∧ (processGestures none s).handY = s.handY
  ∧ (processGestures input s).rotX = s.rotX
  ∧ (processGestures input s).rotY = s.rotY := by
  refine ⟨rfl, rfl, ?_, ?_⟩ <;> cases input <;> rfl

/-! ## Claim about the Rotation Controller -/

/-- C8: in SCATTER mode with a detected hand, each rotation axis advances by
`1.2 * Δt` times exactly the portion of the hand coordinate beyond the ±0.3
dead-zone; in particular a hand with both coordinates inside the dead-zone
leaves the rotation unchanged. -/
theorem scatter_rotation_deadzone (x y δ rx ry : ℚ) :
    (updateRotation Mode.SCATTER true x y δ rx ry).1 = rx + 1.2 * δ * deadExcess y
  ∧ (updateRotation Mode.SCATTER true x y δ rx ry).2 = ry + 1.2 * δ * deadExcess x
  ∧ (|x| ≤ 0.3 → |y| ≤ 0.3 →
      updateRotation Mode.SCATTER true x y δ rx ry = (rx, ry)) := by
  refine ⟨?_, ?_, fun hx hy => ?_⟩
  · simp only [updateRotation, deadExcess]
    split_ifs <;> first | ring1 | tauto
  · simp only [updateRotation, deadExcess]
    split_ifs <;> first | ring1 | tauto
  · obtain ⟨hx1, hx2⟩ := abs_le.1 hx
    obtain ⟨hy1, hy2⟩ := abs_le.1 hy
    simp only [updateRotation]
    split_ifs <;> first | rfl | linarith | tauto

/-- Witness for C8: a stationary hand near the center (0.1, 0.2) produces no
rotation. -/
theorem scatter_rotation_deadzone_witness :
    updateRotation Mode.SCATTER true 0.1 0.2 1 5 7 = (5, 7) :=
  (scatter_rotation_deadzone 0.1 0.2 1 5 7).2.2 (by rw [abs_le]; norm_num)
    (by rw [abs_le]; norm_num)

/-! ## Claims about the Point-Set Generator -/

/-- C5: for every theme and every draw stream, the canopy group has exactly
50000 particles, split into exactly 35000 spiral-majority particles (the ones
without a heart target) and 15000 fill particles (the ones with one). -/
theorem canopy_counts (M : JsMath) (theme : ColorTheme)
    (ds : ℕ → SpiralDraws) (df : ℕ → FillDraws) :
    (generateTreePoints M theme ds df).length = 50000
  ∧ (generateTreePoints M theme ds df).countP
      (fun p => p.heartPos.isNone) = 35000
  ∧ (generateTreePoints M theme ds df).countP
      (fun p => p.heartPos.isSome) = 15000 := by
  have hs : ∀ i, (spiralParticle M theme.tree (ds i)).heartPos = none :=
    fun i => rfl
  have hf : ∀ i, (fillParticle M theme.tree (df i)).heartPos.isSome = true :=
    fun i => rfl
  refine ⟨?_, ?_, ?_⟩
  · simp [generateTreePoints, spiralN_eq, fillN_eq]
  · simp only [generateTreePoints, List.countP_append, List.countP_map]
    rw [List.countP_eq_length.2 (fun i _ => by simp [Function.comp, hs i]),
        List.countP_eq_zero.2 (fun i _ => by
          simp only [Function.comp, Option.isNone_iff_eq_none]
          exact Option.isSome_iff_ne_none.1 (hf i)),
        List.length_range, spiralN_eq]
  · simp only [generateTreePoints, List.countP_append, List.countP_map]
    rw [List.countP_eq_zero.2 (fun i _ => by simp [Function.comp, hs i]),
        List.countP_eq_length.2 (fun i _ => by simp [Function.comp, hf i]),
        List.length_range, fillN_eq]

/-- C6: every particle of the spiral-majority part of the canopy group
carries no heart target, and a HEART-mode interpolation frame applied to such
a particle resting at its base position leaves it exactly there (the HEART
target selection falls back to `basePosition`). -/
theorem spiral_no_heart (M : JsMath) (theme : ColorTheme)
    (ds : ℕ → SpiralDraws) (df : ℕ → FillDraws) (δ : ℚ) (p : Particle)
    (hp : p ∈ (List.range spiralN).map fun i => spiralParticle M theme.tree (ds i)) :
    p.heartPos = none
  ∧ animStep Mode.HEART p p.position δ = p.position
  ∧ p ∈ generateTreePoints M theme ds df := by
  obtain ⟨i, _, rfl⟩ := List.mem_map.1 hp
  refine ⟨rfl, ?_, List.mem_append_left _ hp⟩
  have hsel : selectTarget Mode.HEART (spiralParticle M theme.tree (ds i)) =
      (spiralParticle M theme.tree (ds i)).position := rfl
  simp [animStep, hsel, lerpStep]

/-- Witness for C6: the first spiral particle of a concrete canopy group,
under the trivial math interpretation, has no heart target and is fixed by a
HEART-mode frame of 1/60 s at its base position. -/
theorem spiral_no_heart_witness :
    (spiralParticle M0 classicTheme.tree dSp0).heartPos = none
  ∧ animStep Mode.HEART (spiralParticle M0 classicTheme.tree dSp0)
      (spiralParticle M0 classicTheme.tree dSp0).position (1/60)
      = (spiralParticle M0 classicTheme.tree dSp0).position
  ∧ spiralParticle M0 classicTheme.tree dSp0 ∈
      generateTreePoints M0 classicTheme (fun _ => dSp0) (fun _ => dFill0) :=
  spiral_no_heart M0 classicTheme (fun _ => dSp0) (fun _ => dFill0) (1/60) _
    (List.mem_map.2 ⟨0, List.mem_range.2 (by rw [spiralN_eq]; norm_num), rfl⟩)

/-- C9: for every theme, draw stream and configured star budget `n`, the
ornamental group has exactly `numHearts * (n / numHearts)` particles (1200 at
the reference `STAR_POINTS = 1200`), hence strictly fewer than `n` whenever
`numHearts` does not divide `n`; and every star particle's scatter target
equals its base position componentwise. -/
theorem star_group (M : JsMath) (theme : ColorTheme) (n : ℕ)
    (dh : ℕ → HeartClusterDraws) (dp : ℕ → ℕ → StarDraws) :
    (generateStarPointsN M theme n dh dp).length = numHearts * (n / numHearts)
  ∧ (generateStarPoints M theme dh dp).length = 1200
  ∧ (¬ numHearts ∣ n → (generateStarPointsN M theme n dh dp).length < n)
  ∧ (∀ p ∈ generateStarPointsN M theme n dh dp, p.scatterPos = p.position) := by
  have hlen : ∀ m : ℕ, (generateStarPointsN M theme m dh dp).length
      = numHearts * (m / numHearts) := by
    intro m
    rw [generateStarPointsN,
        length_flatMap_const _ _ (m / numHearts) (fun a _ => by simp),
        List.length_range]
  refine ⟨hlen n, ?_, fun hdvd => ?_, fun p hp => ?_⟩
  · rw [generateStarPoints, hlen STAR_POINTS]
    rfl
  · rw [hlen n]
    have h1 := Nat.div_add_mod n numHearts
    have h2 : n % numHearts ≠ 0 := fun h => hdvd (Nat.dvd_of_mod_eq_zero h)
    omega
  · obtain ⟨h, _, hp2⟩ := List.mem_flatMap.1 hp
    obtain ⟨i, _, rfl⟩ := List.mem_map.1 hp2
    rfl

/-- Witness for C9: at the off-budget count 1201 (not divisible by 15) the
group is strictly smaller than its budget, and a concrete star particle's
scatter target equals its base position. -/
theorem star_group_witness :
    (generateStarPointsN M0 classicTheme 1201 (fun _ => hc0)
        (fun _ _ => st0)).length < 1201
  ∧ (starParticle M0 classicTheme.stars (1201 / numHearts) hc0 0 st0).scatterPos
      = (starParticle M0 classicTheme.stars (1201 / numHearts) hc0 0 st0).position :=
  ⟨(star_group M0 classicTheme 1201 (fun _ => hc0) (fun _ _ => st0)).2.2.1
      (by decide),
   (star_group M0 classicTheme 1201 (fun _ => hc0) (fun _ _ => st0)).2.2.2 _
      (List.mem_flatMap.2 ⟨0, List.mem_range.2 (by norm_num [numHearts]),
        List.mem_map.2 ⟨0, List.mem_range.2 (by norm_num [numHearts]), rfl⟩⟩)⟩

/-! ## Claims about the Shape Interpolator -/

/-- Counterexample to C1: the source applies the factor `k*Δt = 2.0*delta`
without any clamp, so at `Δt = 1` a particle at 0 with target 1 is moved to
2, not to the 1 that the claimed `clamp(k*Δt, 0, 1)` formula produces. -/
theorem interp_no_clamp_cex :
    animStep Mode.TREE pEx ⟨0, 0, 0⟩ 1 = ⟨2, 0, 0⟩
  ∧ specClampStep Mode.TREE pEx ⟨0, 0, 0⟩ 1 = ⟨1, 0, 0⟩
  ∧ animStep Mode.TREE pEx ⟨0, 0, 0⟩ 1 ≠ specClampStep Mode.TREE pEx ⟨0, 0, 0⟩ 1 := by
  have hsel : selectTarget Mode.TREE pEx = ⟨1, 0, 0⟩ := rfl
  have e1 : animStep Mode.TREE pEx ⟨0, 0, 0⟩ 1 = ⟨2, 0, 0⟩ := by
    simp only [animStep, lerpStep, hsel]
    rw [Vec3.mk.injEq]
    norm_num
  have e2 : specClampStep Mode.TREE pEx ⟨0, 0, 0⟩ 1 = ⟨1, 0, 0⟩ := by
    simp only [specClampStep, hsel]
    rw [Vec3.mk.injEq]
    norm_num
  refine ⟨e1, e2, ?_⟩
  rw [e1, e2]
  intro h
  rw [Vec3.mk.injEq] at h
  norm_num at h

/-- C1 as amended: the per-frame update is
`current += (target − current) * (k*Δt)` with `k = 2.0` and no clamping; it
coincides with the claimed clamped formula exactly on frames with
`k*Δt ≤ 1` (i.e. `Δt ≤ 0.5 s`). -/
theorem interp_formula (mode : Mode) (p : Particle) (cur : Vec3) (δ : ℚ)
    (h0 : 0 ≤ δ) (h1 : 2 * δ ≤ 1) :
    animStep mode p cur δ = specClampStep mode p cur δ := by
  have hs : min (max (2.0 * δ) 0) 1 = 2.0 * δ := by
    rw [max_eq_left (by norm_num; linarith), min_eq_left (by norm_num; linarith)]
  simp only [animStep, specClampStep, lerpStep, hs]

/-- Witness for C1 (amended): at the 60 fps reference frame time the
unclamped and clamped updates agree. -/
theorem interp_formula_witness :
    animStep Mode.TREE pEx ⟨0, 0, 0⟩ (1/60)
      = specClampStep Mode.TREE pEx ⟨0, 0, 0⟩ (1/60) :=
  interp_formula Mode.TREE pEx ⟨0, 0, 0⟩ (1/60) (by norm_num) (by norm_num)

/-- Counterexample to C2: `Δt = 1` is a positive frame time, yet one
interpolation step toward the constant target 1 moves the position from 0 to
2 — the distance to the target does not decrease and the position overshoots
the target. -/
theorem interp_overshoot_cex :
    (0 : ℚ) < 1
  ∧ traj 1 0 (fun _ => 1) 1 = 2
  ∧ |traj 1 0 (fun _ => 1) 1 - 1| = |traj 1 0 (fun _ => 1) 0 - 1|
  ∧ 1 < traj 1 0 (fun _ => 1) 1 := by
  have h0 : traj 1 0 (fun _ => 1) 0 = 0 := rfl
  have h1 : traj 1 0 (fun _ => 1) 1 = 2 := by
    show lerpStep (traj 1 0 (fun _ => 1) 0) 1 1 = 2
    rw [h0, lerpStep]
    norm_num
  refine ⟨by norm_num, h1, ?_, by rw [h1]; norm_num⟩
  rw [h0, h1]
  norm_num

/-- C2 as amended: for every sequence of frame times with `0 < Δt` and
`k*Δt < 1` (i.e. `Δt < 0.5 s` at `k = 2`), the iterated interpolation toward
a constant target contracts the signed distance by `1 − k*Δt` each frame,
decreases the distance monotonically (strictly while away from the target),
never overshoots, reaches the target exactly only if it started there, and —
under any uniform positive lower bound on the frame times — converges to the
target in the limit. -/
theorem interp_convergence (t c : ℚ) (δs : ℕ → ℚ)
    (hδ : ∀ n, 0 < δs n ∧ 2 * δs n < 1) :
    (∀ n, traj t c δs (n + 1) - t = (1 - 2 * δs n) * (traj t c δs n - t))
  ∧ (∀ n, |traj t c δs (n + 1) - t| ≤ |traj t c δs n - t|)
  ∧ (∀ n, traj t c δs n ≠ t → |traj t c δs (n + 1) - t| < |traj t c δs n - t|)
  ∧ (∀ n, (c ≤ t → traj t c δs n ≤ t) ∧ (t ≤ c → t ≤ traj t c δs n))
  ∧ (∀ n, traj t c δs n = t ↔ c = t)
  ∧ (∀ δmin : ℚ, 0 < δmin → (∀ n, δmin ≤ δs n) → ∀ ε : ℚ, 0 < ε →
      ∃ N, ∀ n, N ≤ n → |traj t c δs n - t| < ε) := by
  have hpos : ∀ n, 0 < 1 - 2 * δs n := fun n => by linarith [(hδ n).2]
  have key : ∀ n, traj t c δs (n + 1) - t = (1 - 2 * δs n) * (traj t c δs n - t) := by
    intro n
    show lerpStep (traj t c δs n) t (δs n) - t = _
    rw [lerpStep]
    ring
  have habs : ∀ n, |traj t c δs (n + 1) - t| = (1 - 2 * δs n) * |traj t c δs n - t| := by
    intro n
    rw [key n, abs_mul, abs_of_pos (hpos n)]
  have hmono : ∀ n, |traj t c δs (n + 1) - t| ≤ |traj t c δs n - t| := by
    intro n
    rw [habs n]
    have := abs_nonneg (traj t c δs n - t)
    nlinarith [(hδ n).1]
  have hchain : ∀ m n, m ≤ n → |traj t c δs n - t| ≤ |traj t c δs m - t| := by
    intro m n hmn
    induction n, hmn using Nat.le_induction with
    | base => exact le_refl _
    | succ n _ ih => exact (hmono n).trans ih
  have heq : ∀ n, traj t c δs n = t ↔ c = t := by
    intro n
    induction n with
    | zero => exact Iff.rfl
    | succ n ih =>
        rw [← ih, ← sub_eq_zero (a := traj t c δs (n + 1)),
            ← sub_eq_zero (a := traj t c δs n), key n, mul_eq_zero]
        exact or_iff_right (ne_of_gt (hpos n))
  refine ⟨key, hmono, ?_, ?_, heq, ?_⟩
  · intro n hne
    rw [habs n]
    have hd : 0 < |traj t c δs n - t| := abs_pos.2 (sub_ne_zero.2 hne)
    nlinarith [(hδ n).1]
  · intro n
    induction n with
    | zero => exact ⟨fun h => h, fun h => h⟩
    | succ n ih =>
        have hk := key n
        constructor
        · intro hct
          have h1 := ih.1 hct
          nlinarith [hpos n]
        · intro htc
          have h1 := ih.2 htc
          nlinarith [hpos n]
  · intro δmin hδmin hlow ε hε
    have hr1 : 1 - 2 * δmin < 1 := by linarith
    have hr0 : 0 ≤ 1 - 2 * δmin := by linarith [hpos 0, hlow 0]
    have hgeo : ∀ n, |traj t c δs n - t| ≤ (1 - 2 * δmin) ^ n * |c - t| := by
      intro n
      induction n with
      | zero => simp [traj]
      | succ n ih =>
          rw [habs n, pow_succ]
          have hfac : 1 - 2 * δs n ≤ 1 - 2 * δmin := by linarith [hlow n]
          have habsn := abs_nonneg (traj t c δs n - t)
          have hpow : (0:ℚ) ≤ (1 - 2 * δmin) ^ n := pow_nonneg hr0 n
          nlinarith [abs_nonneg (c - t)]
    rcases eq_or_ne c t with rfl | hne
    · refine ⟨0, fun n _ => ?_⟩
      have := hgeo n
      simpa using lt_of_le_of_lt (by simpa using this) hε
    · have hd : 0 < |c - t| := abs_pos.2 (sub_ne_zero.2 hne)
      obtain ⟨N, hN⟩ := exists_pow_lt_of_lt_one (div_pos hε hd) hr1
      refine ⟨N, fun n hn => ?_⟩
      calc |traj t c δs n - t| ≤ |traj t c δs N - t| := hchain N n hn
        _ ≤ (1 - 2 * δmin) ^ N * |c - t| := hgeo N
        _ < ε / |c - t| * |c - t| := by
            exact mul_lt_mul_of_pos_right hN hd
        _ = ε := div_mul_cancel₀ ε (ne_of_gt hd)

/-- Witness for C2 (amended): at the constant frame time 1/4 s, starting at 0
with target 1, the first step contracts the distance and the trajectory never
equals the target. -/
theorem interp_convergence_witness :
    |traj 1 0 (fun _ => (1/4 : ℚ)) 1 - 1| ≤ |traj 1 0 (fun _ => (1/4 : ℚ)) 0 - 1|
  ∧ (traj 1 0 (fun _ => (1/4 : ℚ)) 5 = 1 ↔ (0 : ℚ) = 1) :=
  ⟨(interp_convergence 1 0 (fun _ => (1/4 : ℚ)) (fun _ => by norm_num)).2.1 0,
   (interp_convergence 1 0 (fun _ => (1/4 : ℚ)) (fun _ => by norm_num)).2.2.2.2.1 5⟩

/-! ## Color-range lemmas for the generators -/

/-- `Math.floor` of a value in `[0, B]` stays in `[0, B]`. -/
theorem jsFloor_mem (q B : ℚ) (h0 : 0 ≤ q) (hB : q ≤ B) :
    0 ≤ jsFloor q ∧ jsFloor q ≤ B :=
  ⟨by unfold jsFloor; exact_mod_cast Int.floor_nonneg.2 h0,
   le_trans (Int.floor_le q) hB⟩

/-- A byte channel with a `rand*20` jitter, divided by 255, lies in
`[0, 295/255]`. -/
theorem chan_bound (c j : ℚ) (hc0 : 0 ≤ c) (hc1 : c ≤ 255) (hj : unit01 j) :
    0 ≤ (c + j * 20) / 255 ∧ (c + j * 20) / 255 ≤ 295 / 255 := by
  obtain ⟨hj0, hj1⟩ := hj
  exact ⟨div_nonneg (by linarith) (by norm_num),
         (div_le_div_iff_of_pos_right (by norm_num)).2 (by linarith)⟩

/-- A channel value up to 295, divided by 255, lies in `[0, 295/255]`. -/
theorem plain_chan_bound (c : ℚ) (h0 : 0 ≤ c) (h1 : c ≤ 295) :
    0 ≤ c / 255 ∧ c / 255 ≤ 295 / 255 :=
  ⟨div_nonneg h0 (by norm_num),
   (div_le_div_iff_of_pos_right (by norm_num)).2 h1⟩

/-- A byte channel divided by 255 lies in `[0, 1]`. -/
theorem unit_chan_bound (c : ℚ) (h0 : 0 ≤ c) (h1 : c ≤ 255) :
    0 ≤ c / 255 ∧ c / 255 ≤ 1 :=
  ⟨div_nonneg h0 (by norm_num), by rw [div_le_one (by norm_num)]; linarith⟩

/-- `Math.floor(rand*(b-a)+a)` with both endpoints in `[0,255]` lies in
`[0,255]` for any `rand ∈ [0,1)` (either endpoint order). -/
theorem interp_chan (a b j : ℚ) (ha0 : 0 ≤ a) (ha1 : a ≤ 255) (hb0 : 0 ≤ b)
    (hb1 : b ≤ 255) (hj : unit01 j) :
    0 ≤ jsFloor (j * (b - a) + a) ∧ jsFloor (j * (b - a) + a) ≤ 255 := by
  obtain ⟨hj0, hj1⟩ := hj
  refine jsFloor_mem _ _ ?_ ?_
  · nlinarith [mul_nonneg hj0 hb0, mul_nonneg (sub_nonneg.2 hj1.le) ha0]
  · nlinarith [mul_nonneg hj0 (sub_nonneg.2 hb1),
      mul_nonneg (sub_nonneg.2 hj1.le) (sub_nonneg.2 ha1)]

/-- The jittered palette color lies in the canopy range. -/
theorem jitterColor_range (rgb : ℚ × ℚ × ℚ) (jg jb : ℚ) (h : rgbOK rgb)
    (hg : unit01 jg) (hb : unit01 jb) : inCanopyRange (jitterColor rgb jg jb) := by
  obtain ⟨h1, h2, h3, h4, h5, h6⟩ := h
  exact ⟨(plain_chan_bound _ h1 (by linarith)).1,
         (plain_chan_bound _ h1 (by linarith)).2,
         (chan_bound _ _ h3 h4 hg).1, (chan_bound _ _ h3 h4 hg).2,
         (chan_bound _ _ h5 h6 hb).1, (chan_bound _ _ h5 h6 hb).2⟩

/-- Every spiral-loop color lies in `[0, 295/255]` componentwise. -/
theorem spiralColor_range (pal : TreePalette) (d : SpiralDraws)
    (hpal : paletteOK pal) (hv : ValidSpiralDraws d) :
    inCanopyRange (spiralColor pal d) := by
  obtain ⟨hd, hm, hl⟩ := hpal
  obtain ⟨-, -, -, -, -, -, -, -, -, -, hjg, hjb, hbr⟩ := hv
  rw [spiralColor]
  split_ifs
  · exact ⟨by norm_num, by norm_num, by norm_num, by norm_num,
           by norm_num, by norm_num⟩
  · exact jitterColor_range _ _ _ hd hjg hjb
  · exact jitterColor_range _ _ _ hm hjg hjb
  · exact jitterColor_range _ _ _ hl hjg hjb
  · obtain ⟨hq0, hq1⟩ := jsFloor_mem (d.bright * 25 + 60) 85
      (by linarith [hbr.1]) (by linarith [hbr.2])
    refine ⟨?_, ?_, ?_, ?_, ?_, ?_⟩
    · exact div_nonneg (by linarith) (by norm_num)
    · exact (div_le_div_iff_of_pos_right (by norm_num)).2 (by linarith)
    · exact div_nonneg hq0 (by norm_num)
    · exact (div_le_div_iff_of_pos_right (by norm_num)).2 (by linarith)
    · exact div_nonneg (by linarith) (by norm_num)
    · exact (div_le_div_iff_of_pos_right (by norm_num)).2 (by linarith)
  · obtain ⟨hq0, hq1⟩ := jsFloor_mem (d.bright * 50 + 205) 255
      (by linarith [hbr.1]) (by linarith [hbr.2])
    have h := plain_chan_bound _ hq0 (by linarith)
    exact ⟨h.1, h.2, h.1, h.2, h.1, h.2⟩
  · obtain ⟨hl1, hl2, hl3, hl4, hl5, hl6⟩ := hl
    exact ⟨(plain_chan_bound _ (by linarith) (by linarith)).1,
           (plain_chan_bound _ (by linarith) (by linarith)).2,
           (plain_chan_bound _ (by linarith) (by linarith)).1,
           (plain_chan_bound _ (by linarith) (by linarith)).2,
           (plain_chan_bound _ (by linarith) (by linarith)).1,
           (plain_chan_bound _ (by linarith) (by linarith)).2⟩

/-- Every fill-loop color lies in `[0, 295/255]` componentwise. -/
theorem fillColor_range (pal : TreePalette) (d : FillDraws)
    (hpal : paletteOK pal) (hv : ValidFillDraws d) :
    inCanopyRange (fillColor pal d) := by
  obtain ⟨hd, hm, hl⟩ := hpal
  obtain ⟨-, -, -, -, -, -, -, -, -, -, -, -, -, -, -, -, -, hjg, hjb, hbr⟩ := hv
  rw [fillColor]
  split_ifs
  · exact jitterColor_range _ _ _ hd hjg hjb
  · exact jitterColor_range _ _ _ hm hjg hjb
  · exact jitterColor_range _ _ _ hl hjg hjb
  · obtain ⟨hq0, hq1⟩ := jsFloor_mem (d.bright * 30 + 100) 130
      (by linarith [hbr.1]) (by linarith [hbr.2])
    refine ⟨?_, ?_, ?_, ?_, ?_, ?_⟩
    · exact div_nonneg (by linarith) (by norm_num)
    · exact (div_le_div_iff_of_pos_right (by norm_num)).2 (by linarith)
    · exact div_nonneg hq0 (by norm_num)
    · exact (div_le_div_iff_of_pos_right (by norm_num)).2 (by linarith)
    · exact div_nonneg (by linarith) (by norm_num)
    · exact (div_le_div_iff_of_pos_right (by norm_num)).2 (by linarith)
  · obtain ⟨hq0, hq1⟩ := jsFloor_mem (d.bright * 50 + 205) 255
      (by linarith [hbr.1]) (by linarith [hbr.2])
    have h := plain_chan_bound _ hq0 (by linarith)
    exact ⟨h.1, h.2, h.1, h.2, h.1, h.2⟩
  · obtain ⟨hl1, hl2, hl3, hl4, hl5, hl6⟩ := hl
    exact ⟨(plain_chan_bound _ (by linarith) (by linarith)).1,
           (plain_chan_bound _ (by linarith) (by linarith)).2,
           (plain_chan_bound _ (by linarith) (by linarith)).1,
           (plain_chan_bound _ (by linarith) (by linarith)).2,
           (plain_chan_bound _ (by linarith) (by linarith)).1,
           (plain_chan_bound _ (by linarith) (by linarith)).2⟩

/-- The first ground-color branch's blue ternary stays in `[0,255]`. -/
theorem groundBInterp_bound (gb : GroundB) (j : ℚ) (h : groundBOK gb)
    (hj : unit01 j) : 0 ≤ groundBInterp gb j ∧ groundBInterp gb j ≤ 255 := by
  cases gb with
  | scalar b => exact h
  | range b0 b1 =>
      obtain ⟨h0, h1, h2, h3⟩ := h
      exact interp_chan b0 b1 j h0 h1 h2 h3 hj

/-- The other ground-color branches' blue ternary stays in `[0,255]`. -/
theorem groundBHigh_bound (gb : GroundB) (h : groundBOK gb) :
    0 ≤ groundBHigh gb ∧ groundBHigh gb ≤ 255 := by
  cases gb with
  | scalar b => exact h
  | range b0 b1 => exact ⟨h.2.2.1, h.2.2.2⟩

/-- Every ground color lies in `[0, 1]` componentwise. -/
theorem groundColor_range (theme : ColorTheme) (d : GroundDraws)
    (ht : themeOK theme) (hv : ValidGroundDraws d) :
    inUnit3 (groundColor theme d) := by
  obtain ⟨-, hr0, hr1, hr2, hr3, hg0, hg1, hg2, hg3, hgb, -, -, -, -⟩ := ht
  obtain ⟨-, -, -, -, -, -, -, -, -, -, -, -, -, -, -, -, -, hc1, hc2, hc3⟩ := hv
  rw [groundColor]
  split_ifs
  · have hr := interp_chan _ _ _ hr0 (by linarith) hr2 hr3 hc1
    have hg := interp_chan _ _ _ hg0 (by linarith) hg2 hg3 hc2
    have hb := groundBInterp_bound _ _ hgb hc3
    exact ⟨(unit_chan_bound _ hr.1 hr.2).1, (unit_chan_bound _ hr.1 hr.2).2,
           (unit_chan_bound _ hg.1 hg.2).1, (unit_chan_bound _ hg.1 hg.2).2,
           (unit_chan_bound _ hb.1 hb.2).1, (unit_chan_bound _ hb.1 hb.2).2⟩
  · have hr := jsFloor_mem (d.c1 * 30 + theme.groundR.1) 255
      (by linarith [hc1.1]) (by linarith [hc1.2])
    have hg := jsFloor_mem (d.c2 * 40 + theme.groundG.1) 255
      (by linarith [hc2.1]) (by linarith [hc2.2])
    have hb := groundBHigh_bound _ hgb
    exact ⟨(unit_chan_bound _ hr.1 hr.2).1, (unit_chan_bound _ hr.1 hr.2).2,
           (unit_chan_bound _ hg.1 hg.2).1, (unit_chan_bound _ hg.1 hg.2).2,
           (unit_chan_bound _ hb.1 hb.2).1, (unit_chan_bound _ hb.1 hb.2).2⟩
  · have hmr0 : (0:ℚ) ≤ min 150 theme.groundR.2 := le_min (by norm_num) hr2
    have hmr1 : min 150 theme.groundR.2 ≤ (150:ℚ) := min_le_left _ _
    have hmg0 : (0:ℚ) ≤ min 200 theme.groundG.2 := le_min (by norm_num) hg2
    have hmg1 : min 200 theme.groundG.2 ≤ (200:ℚ) := min_le_left _ _
    have hr := jsFloor_mem (d.c1 * 30 + min 150 theme.groundR.2) 255
      (by linarith [hc1.1]) (by linarith [hc1.2])
    have hg := jsFloor_mem (d.c2 * 30 + min 200 theme.groundG.2) 255
      (by linarith [hc2.1]) (by linarith [hc2.2])
    have hb := groundBHigh_bound _ hgb
    exact ⟨(unit_chan_bound _ hr.1 hr.2).1, (unit_chan_bound _ hr.1 hr.2).2,
           (unit_chan_bound _ hg.1 hg.2).1, (unit_chan_bound _ hg.1 hg.2).2,
           (unit_chan_bound _ hb.1 hb.2).1, (unit_chan_bound _ hb.1 hb.2).2⟩

/-- Every ornamental star color lies in `[0, 1]` componentwise. -/
theorem starParticle_color_range (M : JsMath) (s : ℚ × ℚ) (ppH : ℕ)
    (hc : HeartClusterDraws) (i : ℕ) (d : StarDraws)
    (hs0 : 0 ≤ s.1) (hs1 : s.1 ≤ 255) (hs2 : 0 ≤ s.2) (hs3 : s.2 ≤ 255)
    (hj : unit01 d.baseDraw) : inUnit3 (starParticle M s ppH hc i d).color := by
  have hb := interp_chan s.1 s.2 d.baseDraw hs0 hs1 hs2 hs3 hj
  have hz : (0:ℚ) ≤ 255/255 ∧ (255:ℚ)/255 ≤ 1 := by norm_num
  exact ⟨(unit_chan_bound _ hb.1 hb.2).1, (unit_chan_bound _ hb.1 hb.2).2,
         (unit_chan_bound _ hb.1 hb.2).1, (unit_chan_bound _ hb.1 hb.2).2,
         hz.1, hz.2⟩

/-- All five `COLOR_THEMES` satisfy the palette sanity bounds. -/
theorem allThemes_OK : ∀ t ∈ allThemes, themeOK t := by
  intro t ht
  fin_cases ht <;>
    norm_num [themeOK, paletteOK, rgbOK, groundBOK, classicTheme,
      traditionalTheme, redTheme, blueTheme, purpleTheme]

/-! ## The color-range claim -/

/-- Counterexample to C7: with in-range draws, a fill particle of the red
theme (whose `white` flag is false) drawn into the `light + 40` highlight
branch gets red channel `(255 + 40)/255 = 295/255 > 1` — the generated color
is not a triplet in `[0,1]`. -/
theorem color_range_cex :
    ValidFillDraws dFillCex
  ∧ redTheme ∈ allThemes
  ∧ fillParticle M0 redTheme.tree dFillCex ∈
      generateTreePoints M0 redTheme (fun _ => dSp0) (fun _ => dFillCex)
  ∧ (fillParticle M0 redTheme.tree dFillCex).color.x = 295/255
  ∧ 1 < (fillParticle M0 redTheme.tree dFillCex).color.x := by
  have hcol : (fillParticle M0 redTheme.tree dFillCex).color.x = 295/255 := by
    show (fillColor redTheme.tree dFillCex).x = 295/255
    rw [fillColor]
    norm_num [dFillCex, redTheme]
  refine ⟨by norm_num [ValidFillDraws, dFillCex, unit01],
          by simp [allThemes], ?_, hcol, by rw [hcol]; norm_num⟩
  exact List.mem_append_right _
    (List.mem_map.2 ⟨0, List.mem_range.2 (by rw [fillN_eq]; norm_num), rfl⟩)

/-- C7 as amended: for every theme of `COLOR_THEMES` and all in-range
`Math.random()` draws, every generated color channel is nonnegative; canopy
channels are bounded by `295/255` (they can exceed 1, e.g. in the
`light + 30`/`light + 40` highlight branches and the `+20` jitters on
byte-255 channels), while ground and ornamental star colors do lie in
`[0,1]`. -/
theorem color_ranges (M : JsMath) (theme : ColorTheme)
    (ds : ℕ → SpiralDraws) (df : ℕ → FillDraws) (dg : ℕ → GroundDraws)
    (dh : ℕ → HeartClusterDraws) (dp : ℕ → ℕ → StarDraws)
    (htheme : theme ∈ allThemes)
    (hds : ∀ i, ValidSpiralDraws (ds i))
    (hdf : ∀ i, ValidFillDraws (df i))
    (hdg : ∀ i, ValidGroundDraws (dg i))
    (hdp : ∀ h i, ValidStarDraws (dp h i)) :
    (∀ p ∈ generateTreePoints M theme ds df, inCanopyRange p.color)
  ∧ (∀ p ∈ generateGroundPoints M theme dg, inUnit3 p.color)
  ∧ (∀ p ∈ generateStarPoints M theme dh dp, inUnit3 p.color) := by
  obtain ⟨hpal, hr0, hr1, hr2, hr3, hg0, hg1, hg2, hg3, hgb, hs0, hs1, hs2, hs3⟩ :=
    allThemes_OK theme htheme
  refine ⟨fun p hp => ?_, fun p hp => ?_, fun p hp => ?_⟩
  · rcases List.mem_append.1 hp with hp | hp
    · obtain ⟨i, -, rfl⟩ := List.mem_map.1 hp
      exact spiralColor_range theme.tree (ds i) hpal (hds i)
    · obtain ⟨i, -, rfl⟩ := List.mem_map.1 hp
      exact fillColor_range theme.tree (df i) hpal (hdf i)
  · obtain ⟨i, -, rfl⟩ := List.mem_map.1 hp
    exact groundColor_range theme (dg i)
      ⟨hpal, hr0, hr1, hr2, hr3, hg0, hg1, hg2, hg3, hgb, hs0, hs1, hs2, hs3⟩
      (hdg i)
  · obtain ⟨h, -, hp2⟩ := List.mem_flatMap.1 hp
    obtain ⟨i, -, rfl⟩ := List.mem_map.1 hp2
    exact starParticle_color_range M theme.stars _ (dh h) i (dp h i)
      hs0 hs1 hs2 hs3 (hdp h i).2.2.2

/-- Witness for C7 (amended): concrete particles of each group, generated
under the classic theme with all draws at 1/2, have colors in the proved
ranges. -/
theorem color_ranges_witness :
    inCanopyRange (spiralParticle M0 classicTheme.tree dSp0).color
  ∧ inUnit3 (groundParticle M0 classicTheme dGround0).color
  ∧ inUnit3 (starParticle M0 classicTheme.stars (STAR_POINTS / numHearts)
      hc0 0 st0).color := by
  have h := color_ranges M0 classicTheme (fun _ => dSp0) (fun _ => dFill0)
    (fun _ => dGround0) (fun _ => hc0) (fun _ _ => st0)
    (by simp [allThemes])
    (fun _ => by norm_num [ValidSpiralDraws, dSp0, unit01])
    (fun _ => by norm_num [ValidFillDraws, dFill0, unit01])
    (fun _ => by norm_num [ValidGroundDraws, dGround0, unit01])
    (fun _ _ => by norm_num [ValidStarDraws, st0, unit01])
  exact ⟨h.1 _ (List.mem_append_left _
            (List.mem_map.2 ⟨0, List.mem_range.2 (by rw [spiralN_eq]; norm_num), rfl⟩)),
         h.2.1 _ (List.mem_map.2 ⟨0, List.mem_range.2 (by norm_num [GROUND_POINTS]), rfl⟩),
         h.2.2 _ (List.mem_flatMap.2 ⟨0, List.mem_range.2 (by norm_num [numHearts]),
            List.mem_map.2 ⟨0, List.mem_range.2 (by norm_num [STAR_POINTS, numHearts]), rfl⟩⟩)⟩

end XmasTree
